import Mathlib

/-!
Verification of the make-your-exam selection pipeline.

The definitions below are a shallow embedding of the frontend code:
crop normalization (`handleConfirm` in CropperModal), the cart operations
(`addToCart`, `removeFromCart`) and request construction (`generatePDF`)
from frontend/src/App.jsx.  JavaScript numbers are modelled as `Int`
(page numbers, ids) and `ℚ` (pixel and fractional coordinates); an absent
(`undefined`) field is `Option.none`; JS truthiness of `x || y` is spelled
out (`0`, `undefined` and the empty string are falsy).  The backend
operations `toAbsolute` and `assemble` are not part of the frontend
sources; they are modelled from the specification and marked as such.
-/

namespace MakeYourExam

/-- A pixel rectangle as delivered by the cropper widget (`completedCrop`). -/
@[ext] structure PixelRect where
  x : ℚ
  y : ℚ
  width : ℚ
  height : ℚ
  deriving DecidableEq

/-- A resolution-independent fractional crop rectangle (`normalizedCrop`). -/
@[ext] structure FractionalCrop where
  x : ℚ
  y : ℚ
  width : ℚ
  height : ℚ
  deriving DecidableEq

/-- The rendered image element the cropper measures (`imgRef.current`). -/
structure ImageEl where
  width : ℚ
  height : ℚ
  deriving DecidableEq

/-- CropperModal's `handleConfirm`: with no completed crop or no image it
confirms a null crop; otherwise it divides each pixel coordinate of the
completed crop by the corresponding dimension of the displayed image. -/
def handleConfirm (completedCrop : Option PixelRect) (imgRef : Option ImageEl) :
    Option FractionalCrop :=
  match completedCrop, imgRef with
  | some c, some img =>
      some { x := c.x / img.width, y := c.y / img.height,
             width := c.width / img.width, height := c.height / img.height }
  | _, _ => none

/-- Modelled from the spec: the CropNormalizer inverse `toAbsolute`
(fraction to absolute page coordinates) lives in the backend, which is not
among the frontend sources; per the spec it is the exact inverse of the
fractionalization, multiplying each coordinate by the corresponding page
dimension. -/
def toAbsolute (c : FractionalCrop) (pageWidth pageHeight : ℚ) : PixelRect :=
  { x := c.x * pageWidth, y := c.y * pageHeight,
    width := c.width * pageWidth, height := c.height * pageHeight }

/-- The containment bounds a FractionalCrop is supposed to satisfy. -/
def cropWithinUnit (c : FractionalCrop) : Prop :=
  0 ≤ c.x ∧ 0 ≤ c.y ∧ c.x + c.width ≤ 1 ∧ c.y + c.height ≤ 1

/-- An uploaded file record as stored in the `files` state. -/
structure FileEntry where
  filename : String
  original_name : String
  deriving DecidableEq

/-- A search result as consumed by `addToCart`.  `none` models an absent
(`undefined`) JS field. -/
structure SearchResult where
  source_filename : Option String
  page_number : Option Int
  page : Option Int
  description : String
  deriving DecidableEq

/-- JS `a || b` for a possibly-absent string: `undefined` and `""` are
falsy. -/
def jsOrString (a : Option String) (b : String) : String :=
  match a with
  | some s => if s = "" then b else s
  | none => b

/-- JS `a || b` for possibly-absent numbers: `undefined` and `0` are
falsy. -/
def jsOrInt (a b : Option Int) : Option Int :=
  match a with
  | some n => if n = 0 then b else some n
  | none => b

/-- A cart item as built by `addToCart`. -/
structure CartItem where
  id : Int
  source_pdf : String
  page_number : Option Int
  order : Nat
  description : String
  crop_box : Option FractionalCrop
  deriving DecidableEq

/-- The `newItem` object `addToCart` constructs: `id` is `Date.now()`,
`source_pdf` is `result.source_filename || files[0].filename || ''`,
`page_number` is `(result.page_number || result.page) - 1`, `order` is the
current cart length. -/
def newCartItem (now : Int) (files : List FileEntry) (result : SearchResult)
    (crop : Option FractionalCrop) (cartLen : Nat) : CartItem :=
  { id := now,
    source_pdf := jsOrString result.source_filename
      (match files with
       | f :: _ => f.filename
       | [] => ""),
    page_number := (jsOrInt result.page_number result.page).map (fun n => n - 1),
    order := cartLen,
    description := result.description,
    crop_box := crop }

/-- The React component state of `App`. -/
structure AppState where
  files : List FileEntry
  searchQuery : String
  searchResults : List SearchResult
  cart : List CartItem
  isProcessing : Bool
  cacheId : Option String
  deriving DecidableEq

/-- `addToCart`: `setCart([...cart, newItem])`. -/
def addToCart (now : Int) (result : SearchResult) (crop : Option FractionalCrop)
    (s : AppState) : AppState :=
  { s with cart := s.cart ++ [newCartItem now s.files result crop s.cart.length] }

/-- `removeFromCart`: `setCart(cart.filter(item => item.id !== id))`. -/
def removeFromCart (id : Int) (s : AppState) : AppState :=
  { s with cart := s.cart.filter (fun item => item.id != id) }

/-- The comparator `(a, b) => a.order - b.order`: `a` may precede `b`
exactly when `a.order - b.order ≤ 0`. -/
def orderLE (a b : CartItem) : Bool :=
  decide (a.order ≤ b.order)

/-- `cart.sort((a, b) => a.order - b.order)`: `Array.prototype.sort` is a
stable in-place sort, modelled by the stable `List.mergeSort`. -/
def sortedSelections (cart : List CartItem) : List CartItem :=
  cart.mergeSort orderLE

/-- The wire form of one selection in the generate-pdf request body. -/
structure GenSelection where
  source_pdf : String
  page_number : Option Int
  crop_box : Option (List ℚ)
  deriving DecidableEq

/-- One element of the `selections` array: `crop_box` is the 4-tuple
`[x, y, width, height]` when the item has a crop and `null` otherwise. -/
def serializeSelection (s : CartItem) : GenSelection :=
  { source_pdf := s.source_pdf,
    page_number := s.page_number,
    crop_box := s.crop_box.map (fun c => [c.x, c.y, c.width, c.height]) }

/-- The `selections` array of the generate-pdf request body. -/
def generatePayload (cart : List CartItem) : List GenSelection :=
  (sortedSelections cart).map serializeSelection

/-- The outcome of the fetch to `/api/generate-pdf`: either the request (or
JSON parse) threw, or a parsed response with a `status` and a
`download_url`. -/
inductive FetchResult where
  | failure : FetchResult
  | response : String → String → FetchResult
  deriving DecidableEq

/-- `data.status === 'success'`. -/
def isSuccess : FetchResult → Bool
  | FetchResult.response s _ => s == "success"
  | FetchResult.failure => false

/-- `generatePDF`, returning the state after the handler together with
whether a request was sent.  An empty cart returns early, sending nothing.
Otherwise the cart array is sorted in place; on a success response the cart
is cleared, on any failure `setCart` is not called, so the state keeps the
in-place-sorted array. -/
def generatePDF (s : AppState) (fetch : FetchResult) : AppState × Bool :=
  if s.cart.length = 0 then (s, false)
  else if isSuccess fetch then
    ({ s with cart := [], isProcessing := false }, true)
  else
    ({ s with cart := sortedSelections s.cart, isProcessing := false }, true)

/-- Modelled from the spec: a document held by the backend PageStore (the
backend is not among the frontend sources); a selection resolves against it
by source filename and 0-based page index. -/
structure StoredDoc where
  filename : String
  page_count : Nat
  page_width : ℚ
  page_height : ℚ
  deriving DecidableEq

/-- One page of the assembled output PDF, by its final dimensions: the full
source page size for an uncropped selection, the crop's absolute size
otherwise. -/
structure OutputPage where
  width : ℚ
  height : ℚ
  deriving DecidableEq

/-- The error outcomes of assembly, per the spec's error taxonomy. -/
inductive AssembleError where
  | AssemblyError : AssembleError
  | SelectionResolutionError : GenSelection → AssembleError
  deriving DecidableEq

/-- Modelled from the spec: resolving one selection during assembly (backend
code, not among the frontend sources): find the source document, check the
page index, and emit a page sized to the full page or to the crop's
absolute dimensions. -/
def resolveSelection (store : List StoredDoc) (sel : GenSelection) :
    Except AssembleError OutputPage :=
  match store.find? (fun d => d.filename == sel.source_pdf) with
  | none => Except.error (AssembleError.SelectionResolutionError sel)
  | some d =>
    match sel.page_number with
    | some p =>
      if 0 ≤ p ∧ p < (d.page_count : Int) then
        match sel.crop_box with
        | none => Except.ok { width := d.page_width, height := d.page_height }
        | some [_, _, w, h] =>
          Except.ok { width := w * d.page_width, height := h * d.page_height }
        | some _ => Except.error (AssembleError.SelectionResolutionError sel)
      else Except.error (AssembleError.SelectionResolutionError sel)
    | none => Except.error (AssembleError.SelectionResolutionError sel)

/-- Modelled from the spec: the backend `assemble` (not among the frontend
sources) fails with `AssemblyError` when given zero selections and
otherwise resolves every selection, in the given order, into one output
page each. -/
def assemble (selections : List GenSelection) (store : List StoredDoc) :
    Except AssembleError (List OutputPage) :=
  if selections.isEmpty then Except.error AssembleError.AssemblyError
  else selections.mapM (resolveSelection store)

/-- A sample cart item for concrete checks. -/
def sampleItem : CartItem :=
  { id := 7, source_pdf := "a.pdf", page_number := some 1, order := 0,
    description := "q1", crop_box := none }

/-- A sample populated application state for concrete checks. -/
def sampleState : AppState :=
  { files := [], searchQuery := "", searchResults := [], cart := [sampleItem],
    isProcessing := false, cacheId := none }

/-- C1: for a search result reporting a (1-based, hence nonzero) page
number, the cart item `addToCart` appends stores `page_number` equal to
that number minus 1, and serialization for the generate endpoint sends the
stored value unchanged. -/
theorem C1_page_number_conversion (now : Int) (result : SearchResult)
    (crop : Option FractionalCrop) (s : AppState) (n : Int)
    (hpn : result.page_number = some n) (hn : n ≠ 0) :
    (newCartItem now s.files result crop s.cart.length).page_number
      = some (n - 1) ∧
    (addToCart now result crop s).cart
      = s.cart ++ [newCartItem now s.files result crop s.cart.length] ∧
    ∀ item : CartItem, (serializeSelection item).page_number = item.page_number := by
  refine ⟨?_, rfl, fun item => rfl⟩
  simp [newCartItem, jsOrInt, hpn, hn]

/-- Concrete instance of C1: an approved result on page 3 is stored and
sent with page_number 2. -/
theorem C1_page_number_conversion_witness :
    (newCartItem 0 [] ⟨none, some 3, none, "q"⟩ none 0).page_number = some 2 := by
  have h := C1_page_number_conversion 0 ⟨none, some 3, none, "q"⟩ none
    ⟨[], "", [], [], false, none⟩ 3 rfl (by decide)
  simpa using h.1

/-- C2 counterexample: `handleConfirm` does not clamp: a completed pixel
rectangle overshooting a 1×1 image produces a fractional crop with
x + width = 2 > 1. -/
theorem C2_counterexample :
    handleConfirm (some ⟨0, 0, 2, 1⟩) (some ⟨1, 1⟩) = some ⟨0, 0, 2, 1⟩ ∧
    ¬ cropWithinUnit ⟨0, 0, 2, 1⟩ := by
  constructor
  · simp [handleConfirm]
  · simp [cropWithinUnit]

/-- C2 amended: `handleConfirm` performs no clamping; the containment
bounds 0 ≤ x, 0 ≤ y, x + width ≤ 1, y + height ≤ 1 hold whenever the
completed pixel rectangle lies within the image bounds (an overshooting
selection yields a crop outside [0,1]). -/
theorem C2_containment_within_bounds (c : PixelRect) (img : ImageEl)
    (hw : 0 < img.width) (hh : 0 < img.height)
    (hx : 0 ≤ c.x) (hy : 0 ≤ c.y)
    (hxw : c.x + c.width ≤ img.width) (hyh : c.y + c.height ≤ img.height)
    (f : FractionalCrop) (hf : handleConfirm (some c) (some img) = some f) :
    cropWithinUnit f := by
  have hf' : ({ x := c.x / img.width, y := c.y / img.height,
                width := c.width / img.width,
                height := c.height / img.height } : FractionalCrop) = f :=
    Option.some.inj hf
  subst hf'
  refine ⟨div_nonneg hx hw.le, div_nonneg hy hh.le, ?_, ?_⟩
  · show c.x / img.width + c.width / img.width ≤ 1
    rw [div_add_div_same]
    exact (div_le_one hw).mpr hxw
  · show c.y / img.height + c.height / img.height ≤ 1
    rw [div_add_div_same]
    exact (div_le_one hh).mpr hyh

/-- Concrete instance of the amended C2: a quarter-size in-bounds selection
normalizes to a contained fractional crop. -/
theorem C2_containment_within_bounds_witness :
    cropWithinUnit ⟨1 / 4, 1 / 4, 2 / 4, 2 / 4⟩ :=
  C2_containment_within_bounds ⟨1, 1, 2, 2⟩ ⟨4, 4⟩ (by norm_num) (by norm_num)
    (by norm_num) (by norm_num) (by norm_num) (by norm_num)
    ⟨1 / 4, 1 / 4, 2 / 4, 2 / 4⟩ rfl

/-- C3: the selections sent to the generate endpoint are sorted ascending
by `order`; ties keep the insertion sequence (every subsequence of the cart
whose items share one `order` value is still a subsequence after sorting);
and the payload has exactly as many selections as the cart has items. -/
theorem C3_payload_sorted_stable_length (cart : List CartItem) :
    (sortedSelections cart).Pairwise (fun a b => a.order ≤ b.order) ∧
    (∀ k : Nat,
      List.Sublist (cart.filter (fun i => i.order == k)) (sortedSelections cart)) ∧
    (generatePayload cart).length = cart.length := by
  have htrans : ∀ a b c : CartItem, orderLE a b → orderLE b c → orderLE a c := by
    intro a b c hab hbc
    simp only [orderLE, decide_eq_true_eq] at *
    omega
  have htotal : ∀ a b : CartItem, orderLE a b || orderLE b a := by
    intro a b
    simp only [orderLE, Bool.or_eq_true, decide_eq_true_eq]
    omega
  refine ⟨?_, ?_, ?_⟩
  · have h := List.sorted_mergeSort htrans htotal cart
    exact h.imp (fun hab => by simpa [orderLE] using hab)
  · intro k
    apply List.sublist_mergeSort htrans htotal
    · apply List.pairwise_of_forall_mem_list
      intro a ha b hb
      have ha' := (List.mem_filter.mp ha).2
      have hb' := (List.mem_filter.mp hb).2
      simp only [beq_iff_eq] at ha' hb'
      simp only [orderLE, decide_eq_true_eq]
      omega
    · exact List.filter_sublist cart
  · simp [generatePayload, sortedSelections, List.length_mergeSort]

/-- Concrete instance of C3: a one-item cart yields a one-selection
payload. -/
theorem C3_payload_sorted_stable_length_witness :
    (generatePayload [sampleItem]).length = ([sampleItem] : List CartItem).length :=
  (C3_payload_sorted_stable_length [sampleItem]).2.2

/-- C4: `handleConfirm` returns exactly each pixel coordinate divided by
the corresponding image dimension. -/
theorem C4_toFraction_divides (c : PixelRect) (img : ImageEl)
    (hw : 0 < img.width) (hh : 0 < img.height) :
    handleConfirm (some c) (some img)
      = some ⟨c.x / img.width, c.y / img.height,
              c.width / img.width, c.height / img.height⟩ := rfl

/-- Concrete instance of C4. -/
theorem C4_toFraction_divides_witness :
    handleConfirm (some ⟨1, 2, 3, 4⟩) (some ⟨10, 20⟩)
      = some ⟨1 / 10, 2 / 20, 3 / 10, 4 / 20⟩ :=
  C4_toFraction_divides ⟨1, 2, 3, 4⟩ ⟨10, 20⟩ (by norm_num) (by norm_num)

/-- C5: round-trip: applying `handleConfirm` and then `toAbsolute` with the
same positive dimensions returns the original pixel rectangle — exactly, in
exact rational arithmetic. -/
theorem C5_roundtrip (c : PixelRect) (img : ImageEl)
    (hw : 0 < img.width) (hh : 0 < img.height) (f : FractionalCrop)
    (hf : handleConfirm (some c) (some img) = some f) :
    toAbsolute f img.width img.height = c := by
  have hf' : ({ x := c.x / img.width, y := c.y / img.height,
                width := c.width / img.width,
                height := c.height / img.height } : FractionalCrop) = f :=
    Option.some.inj hf
  subst hf'
  ext
  · exact div_mul_cancel₀ c.x hw.ne'
  · exact div_mul_cancel₀ c.y hh.ne'
  · exact div_mul_cancel₀ c.width hw.ne'
  · exact div_mul_cancel₀ c.height hh.ne'

/-- Concrete instance of C5. -/
theorem C5_roundtrip_witness :
    toAbsolute ⟨1 / 10, 2 / 20, 3 / 10, 4 / 20⟩ 10 20 = ⟨1, 2, 3, 4⟩ :=
  C5_roundtrip ⟨1, 2, 3, 4⟩ ⟨10, 20⟩ (by norm_num) (by norm_num)
    ⟨1 / 10, 2 / 20, 3 / 10, 4 / 20⟩ rfl

/-- C6 counterexample: a zero-width completed crop is confirmed as a
success value (width 0 after division); there is no `InvalidRectError`
outcome at all. -/
theorem C6_counterexample :
    handleConfirm (some ⟨0, 0, 0, 5⟩) (some ⟨10, 10⟩)
        = some ⟨0, 0, 0, 1 / 2⟩ ∧
    (⟨0, 0, 0, 1 / 2⟩ : FractionalCrop).width = 0 := by
  constructor
  · show some (⟨0 / 10, 0 / 10, 0 / 10, 5 / 10⟩ : FractionalCrop) = _
    norm_num
  · rfl

/-- C6 amended: `handleConfirm` performs no degeneracy check and has no
failure outcome: a completed crop with zero or negative width or height is
still returned as a success value (the divided rectangle). -/
theorem C6_no_degeneracy_check (c : PixelRect) (img : ImageEl)
    (hdeg : c.width ≤ 0 ∨ c.height ≤ 0) :
    (handleConfirm (some c) (some img)).isSome = true := rfl

/-- Concrete instance of the amended C6. -/
theorem C6_no_degeneracy_check_witness :
    (handleConfirm (some ⟨0, 0, 0, 5⟩) (some ⟨10, 10⟩)).isSome = true :=
  C6_no_degeneracy_check ⟨0, 0, 0, 5⟩ ⟨10, 10⟩ (Or.inl (by norm_num))

/-- C7: a serialized selection's `crop_box` is the 4-tuple
[x, y, width, height] of its fractional crop when one is present, and
`null` exactly when the item has no crop; confirming the cropper with no
completed crop yields a null crop. -/
theorem C7_crop_box_serialization (s : CartItem) :
    (∀ c : FractionalCrop, s.crop_box = some c →
      (serializeSelection s).crop_box = some [c.x, c.y, c.width, c.height]) ∧
    ((serializeSelection s).crop_box = none ↔ s.crop_box = none) ∧
    (∀ img : Option ImageEl, handleConfirm none img = none) := by
  refine ⟨?_, ?_, ?_⟩
  · intro c hc
    simp [serializeSelection, hc]
  · simp [serializeSelection]
  · intro img
    cases img <;> rfl

/-- Concrete instance of C7: an uncropped item serializes with a null
crop_box. -/
theorem C7_crop_box_serialization_witness :
    (serializeSelection sampleItem).crop_box = none ↔
      sampleItem.crop_box = none :=
  (C7_crop_box_serialization sampleItem).2.1

/-- C8: `assemble` fails with `AssemblyError` on an empty selection list and
never returns output pages for it. -/
theorem C8_assemble_empty_fails (store : List StoredDoc) :
    assemble [] store = Except.error AssembleError.AssemblyError ∧
    ∀ pages : List OutputPage, assemble [] store ≠ Except.ok pages := by
  refine ⟨rfl, ?_⟩
  intro pages h
  simp [assemble] at h

/-- Concrete instance of C8. -/
theorem C8_assemble_empty_fails_witness :
    assemble [] [] = Except.error AssembleError.AssemblyError :=
  (C8_assemble_empty_fails []).1

/-- C9: `removeFromCart` keeps exactly the items whose id differs from the
given id, each unchanged and in the original relative order, and leaves
every other state field untouched. -/
theorem C9_removeFromCart_frame (id : Int) (s : AppState) :
    List.Sublist (removeFromCart id s).cart s.cart ∧
    (∀ x : CartItem, x ∈ (removeFromCart id s).cart ↔ x ∈ s.cart ∧ x.id ≠ id) ∧
    (removeFromCart id s).files = s.files ∧
    (removeFromCart id s).searchQuery = s.searchQuery ∧
    (removeFromCart id s).searchResults = s.searchResults ∧
    (removeFromCart id s).isProcessing = s.isProcessing ∧
    (removeFromCart id s).cacheId = s.cacheId := by
  refine ⟨List.filter_sublist s.cart, ?_, rfl, rfl, rfl, rfl, rfl⟩
  intro x
  simp [removeFromCart, List.mem_filter]

/-- Concrete instance of C9: removing the only item's id empties the cart
while the relative-order (sublist) relation holds. -/
theorem C9_removeFromCart_frame_witness :
    List.Sublist (removeFromCart 7 sampleState).cart sampleState.cart :=
  (C9_removeFromCart_frame 7 sampleState).1

/-- C10: `generatePDF` on an empty cart sends no request and changes no
state; on a nonempty cart it sends one request, the cart ends empty exactly
when the response reports success, and on failure the cart still holds
exactly the same selections (the in-place sort may only reorder them). -/
theorem C10_generate_atomic (s : AppState) (fetch : FetchResult) :
    (s.cart = [] → generatePDF s fetch = (s, false)) ∧
    (s.cart ≠ [] →
      (generatePDF s fetch).2 = true ∧
      ((generatePDF s fetch).1.cart = [] ↔ isSuccess fetch = true) ∧
      (isSuccess fetch = false →
        List.Perm (generatePDF s fetch).1.cart s.cart)) := by
  constructor
  · intro h
    simp [generatePDF, h]
  · intro h
    have hlen : ¬ s.cart.length = 0 := by
      simpa [List.length_eq_zero] using h
    cases hs : isSuccess fetch
    · have hperm := List.mergeSort_perm s.cart orderLE
      have hnil : sortedSelections s.cart ≠ [] := by
        intro hnil
        apply hlen
        have hl := hperm.length_eq
        rw [show sortedSelections s.cart = s.cart.mergeSort orderLE from rfl]
          at hnil
        rw [hnil] at hl
        exact hl.symm
      refine ⟨by simp [generatePDF, hlen, hs], ?_, ?_⟩
      · simp [generatePDF, hlen, hs, hnil]
      · intro _
        have hg : (generatePDF s fetch).1.cart = sortedSelections s.cart := by
          simp [generatePDF, hlen, hs]
        rw [hg]
        exact hperm
    · refine ⟨by simp [generatePDF, hlen, hs], by simp [generatePDF, hlen, hs],
        ?_⟩
      intro hf
      exact Bool.noConfusion hf

/-- Concrete instance of C10: on a failed request the cart keeps the same
selections. -/
theorem C10_generate_atomic_witness :
    List.Perm (generatePDF sampleState FetchResult.failure).1.cart
      sampleState.cart := by
  have h := C10_generate_atomic sampleState FetchResult.failure
  exact (h.2 (by simp [sampleState])).2.2 rfl

end MakeYourExam
